import Mathlib

set_option linter.unusedVariables false

/-!
Shallow embedding of `travelingSalesman.py` (the repository's single source
file) and proofs about it.

Conventions of the embedding:
* matrix costs are `Int` (the source holds them in a numpy array; the values
  relevant here, `-1` sentinels and the `999999` substitute, are integers);
* demands are `Rat` (the source parses them with Python `float`);
* a call to `sys.exit(code)` is modelled as an explicit `exit`/`error`
  outcome carrying the code;
* results of the network collaborators (the key file read, the distance
  matrix returned by the Bing API) are passed in as parameters, since the
  claims quantify over them.
-/

namespace TravelingSalesman

/-- Constant `BING_DM_API_CUSTOMER_LIMIT` (source line 17). -/
def BING_DM_API_CUSTOMER_LIMIT : Nat := 50

/-- Outcome of the module-level initialization (source lines 19–24). -/
inductive ImportInit where
  | apiKey (key : String)
  | exitProcess (code : Nat)
  deriving Repr, DecidableEq

/-- Embeds the module-level side effect at import time (source lines 19–24):
the file `MyBingMapApi.key` is opened and read; `fileRead` is `some contents`
when the read succeeds and `none` when it raises `OSError`.  On failure the
program writes an error to stderr and calls `sys.exit(1)`; on success the
key is the stripped file contents. -/
def moduleInit (fileRead : Option String) : ImportInit :=
  match fileRead with
  | some contents => .apiKey contents.trim
  | none => .exitProcess 1

/-- Python whitespace as recognised by `str.strip()`: space, tab, newline,
carriage return, vertical tab, form feed. -/
def pyIsSpace (c : Char) : Bool :=
  c = ' ' || c = '\t' || c = '\n' || c = '\r' || c = Char.ofNat 11 || c = Char.ofNat 12

/-- Python `s.strip()` over the characters of `s`: drop leading and
trailing whitespace. -/
def pyStrip (cs : List Char) : List Char :=
  ((cs.dropWhile pyIsSpace).reverse.dropWhile pyIsSpace).reverse

/-- Python `s.split(sep)` for a one-character separator: splitting the
empty string gives `[""]`, and every separator occurrence opens a new
field. -/
def pySplit (sep : Char) : List Char → List (List Char)
  | [] => [[]]
  | c :: rest =>
    match pySplit sep rest with
    | [] => [[]]
    | f :: fs => if c = sep then [] :: f :: fs else (c :: f) :: fs

/-- The tab-separated fields of a data line after stripping, i.e. Python's
`line.strip().split('\t')` (source lines 110 and 113). -/
def pyFields (rawLine : String) : List String :=
  (pySplit '\t' (pyStrip rawLine.data)).map (fun cs => String.mk cs)

/-- Value of the digit string `cs`, as Python `int`/`float` read a digit run. -/
def digitsVal (cs : List Char) : Nat :=
  cs.foldl (fun a c => a * 10 + (c.toNat - 48)) 0

/-- Python `float(s)` on the plain decimal strings used for the goodsDemand
field (source line 127): optional sign, digit run, optional fractional part.
A string not of this shape raises `ValueError` in the source (uncaught there,
so the process dies with a traceback); such inputs are outside every claim
and map to `0` here. -/
def pyFloat (s : String) : Rat :=
  let t := pyStrip s.data
  let su : Int × List Char :=
    if t.head? = some '-' then (-1, t.tail)
    else if t.head? = some '+' then (1, t.tail)
    else (1, t)
  match pySplit '.' su.2 with
  | [ip] => ((su.1 * (digitsVal ip : Int) : Int) : Rat)
  | [ip, fp] =>
      (su.1 : Rat) * ((digitsVal ip : Rat) + (digitsVal fp : Rat) / ((10 : Rat) ^ fp.length))
  | _ => 0

/-- A parsed location dict (source lines 119–129).  The geocoding step
(source line 133) copies the dict and adds latitude/longitude; it does not
change any field embedded here, so coordinates are omitted. -/
structure Location where
  addressLine : String
  postalCode : String
  locality : String
  countryRegion : String
  demand : Rat
  comment : Option String
  deriving Repr, DecidableEq, Inhabited

/-- Embeds the handling of one line of the address file (source lines
109–129): strip the line, skip it when empty, split on tabs, exit the
process (`Except.error 1`) when the field count is outside 4..6, otherwise
build the location: demand defaults to `1`, or `0` for the first parsed
location; a line with exactly 5 fields overrides demand with `float(parts[4])`;
a line with exactly 6 fields stores `parts[5]` as the comment.  The source
assigns the default demand and then overrides it when the line has 5
fields; the 5-field and 6-field cases exclude each other, so both fields
are written here as single conditionals.  `nLocs` is `len(locations)` when
the line is processed.  `Except.ok none` is a skipped blank line. -/
def parseLine (nLocs : Nat) (rawLine : String) : Except Nat (Option Location) :=
  if (pyStrip rawLine.data).length = 0 then .ok none
  else
    let parts := pyFields rawLine
    if parts.length < 4 ∨ 6 < parts.length then .error 1
    else
      .ok (some
        { addressLine := parts.getD 0 ""
          postalCode := parts.getD 1 ""
          locality := parts.getD 2 ""
          countryRegion := parts.getD 3 ""
          demand :=
            if parts.length = 5 then pyFloat (parts.getD 4 "")
            else if 0 < nLocs then 1 else 0
          comment := if parts.length = 6 then some (parts.getD 5 "") else none })

/-- Embeds the address-file reading loop (source lines 107–133): fold
`parseLine` over the file's lines, accumulating the parsed locations in
order; the first invalid line exits the process. -/
def parseAddressFile (lines : List String) : Except Nat (List Location) :=
  lines.foldlM
    (fun locs line => do
      match ← parseLine locs.length line with
      | none => pure locs
      | some loc => pure (locs ++ [loc]))
    []

/-- Embeds `create_data_model` (source lines 70–75): `D[D == -1] = 999999`
replaces every `-1` entry of the matrix with the constant `999999`; the
resulting matrix is the `'distance_matrix'` entry of the data model. -/
def create_data_model (D : List (List Int)) : List (List Int) :=
  D.map (fun row => row.map (fun x => if x = -1 then 999999 else x))

/-- Stated from the spec's words (§4.1), for comparison with
`create_data_model`: sentinel entries are rewritten to `max(matrix) * N`
where `N` is the matrix dimension and the max ranges over the entries
(entries other than the sentinel are non-negative in the spec's data model,
so the empty fold seed `0` is only the degenerate default). -/
def specSentinelRewrite (D : List (List Int)) : List (List Int) :=
  let m : Int := (D.foldl (fun a row => row.foldl max a) 0) * (D.length : Int)
  D.map (fun row => row.map (fun x => if x = -1 then m else x))

/-- Embeds `distance_callback` (source lines 172–173): look the pair of
nodes up in the data model's matrix.  With the single vehicle and depot `0`
of this model, `manager.IndexToNode` is the identity on the node indices
used below, so the callback is a plain matrix lookup; an out-of-range pair
(never queried by the solver) defaults to `0`. -/
def distance_callback (data : List (List Int)) (from_index to_index : Nat) : Int :=
  (data.getD from_index []).getD to_index 0

/-- The routing index manager (source line 167):
`pywrapcp.RoutingIndexManager(len(data['distance_matrix']), 1, 0)`. -/
structure RoutingIndexManager where
  numNodes : Nat
  numVehicles : Nat
  depot : Nat
  deriving Repr, DecidableEq

/-- The program's parsed CLI arguments (source lines 97–105), restricted to
the fields that survive parsing.  `C` is the `-C` vehicle-capacity flag. -/
structure ParsedArgs where
  useAddressFile : Bool
  travelMode : String
  C : Option Rat
  writeOutputFile : Bool
  verbosity : Bool
  deriving Repr, DecidableEq

/-- The routing model the source constructs (source lines 166–183): the
index manager, the arc-cost evaluator registered for all vehicles (the
transit callback), and the list of dimensions added to the model.  The
source never calls `AddDimension`, so the dimension list of every model it
builds is empty — in particular no capacity dimension exists. -/
structure RoutingModel where
  manager : RoutingIndexManager
  arcCost : Nat → Nat → Int
  dimensions : List String

/-- Embeds the model construction in `main` (source lines 166–183).  `args`
is in scope at this point of `main` and is taken as a parameter; the
construction reads none of it — the manager is built as
`RoutingIndexManager(len(data['distance_matrix']), 1, 0)`, the arc cost is
`distance_callback` over the data matrix, and no dimension is added. -/
def buildRoutingModel (args : ParsedArgs) (data : List (List Int)) : RoutingModel :=
  { manager := { numNodes := data.length, numVehicles := 1, depot := 0 }
    arcCost := fun i j => distance_callback data i j
    dimensions := [] }

/-- Cheapest-arc selection: the candidate `u` minimizing `cost cur u`, the
earliest such candidate on a tie. -/
def cheapestNext (cost : Nat → Nat → Int) (cur : Nat) (cands : List Nat) : Option Nat :=
  cands.foldl
    (fun best u =>
      match best with
      | none => some u
      | some b => if cost cur u < cost cur b then some u else some b)
    none

/-- Greedy route extension: from `cur`, repeatedly move to the cheapest
unvisited node.  `fuel` bounds the recursion (it is set to the node count,
an upper bound on the unvisited list's length). -/
def greedyRoute (cost : Nat → Nat → Int) : Nat → List Nat → Nat → List Nat
  | _, _, 0 => []
  | cur, unvisited, Nat.succ fuel =>
    match cheapestNext cost cur unvisited with
    | none => []
    | some u => u :: greedyRoute cost u (unvisited.erase u) fuel

/-- Model of `routing.SolveWithParameters(search_parameters)` (source line
186) applied to the model the source builds.  That model carries no
constraint besides the arc costs — no capacity dimension, no disjunctions —
so the search returns a closed single-vehicle tour through all nodes
whenever any node exists.  The returned tour is modelled as the
PATH_CHEAPEST_ARC construction configured as the first-solution strategy
(source lines 181–183): extend from the depot by the cheapest arc.  Every
claim settled below is insensitive to which particular tour of all nodes
the library returns. -/
def SolveWithParameters (m : RoutingModel) : Option (List Nat) :=
  if m.manager.numNodes = 0 then none
  else
    some (m.manager.depot ::
      (greedyRoute m.arcCost m.manager.depot
          ((List.range m.manager.numNodes).filter (fun v => v ≠ m.manager.depot))
          m.manager.numNodes
        ++ [m.manager.depot]))

/-- Embeds the route-cost summation loop of `print_solution` (source lines
196–205): walk the route from `Start(0)` to the route end, adding
`routing.GetArcCostForVehicle(previous_index, index, 0)` — which evaluates
the registered callback, i.e. a matrix lookup — for each step, including
the final step into the route end (the depot). -/
def route_distance (D : List (List Int)) : List Nat → Int
  | [] => 0
  | [_] => 0
  | a :: b :: rest => distance_callback D a b + route_distance D (b :: rest)

/-- Stated from the spec's words (§3 invariant 4, §4.3), for comparison with
`route_distance`: the sum of `cost(route[k], route[k+1])` over every
consecutive pair of the route. -/
def specTourCost (D : List (List Int)) (route : List Nat) : Int :=
  ((route.zip route.tail).map (fun p => distance_callback D p.1 p.2)).sum

/-- Outcome of `main` once a data model exists (source lines 186–205). -/
inductive MainOutcome where
  | exit (code : Nat)
  | noSolutionFound
  | solved (route : List Nat) (reportedCost : Int)
  deriving Repr, DecidableEq

/-- Embeds `main` from the data model on (source lines 150–205 resp.
158–205): build the data model from the matrix `D`, build the routing
model, solve, and either report the solution's route with its printed route
distance or print "No solution found!". -/
def mainSolve (args : ParsedArgs) (D : List (List Int)) : MainOutcome :=
  let data := create_data_model D
  let model := buildRoutingModel args data
  match SolveWithParameters model with
  | some route => .solved route (route_distance data route)
  | none => .noSolutionFound

/-- Embeds the address-file branch of `main` end to end (source lines
107–205): parse the address file (exiting on an invalid line), apply the
Bing size-limit gate (source lines 138–142), then request the distance
matrix — its network response is the parameter `D` — and solve. -/
def mainAddressOutcome (args : ParsedArgs) (lines : List String)
    (D : List (List Int)) : MainOutcome :=
  match parseAddressFile lines with
  | .error code => .exit code
  | .ok locs =>
    if BING_DM_API_CUSTOMER_LIMIT < locs.length then .exit 1
    else mainSolve args D

/-- Externally visible steps of `main` after the address file has been
parsed and geocoded (source lines 136–186), in program order: the
size-limit gate (lines 138–142) either exits the process or lets the run
proceed to the distance-matrix request (line 144) and then to the model
build and solve (lines 166–186). -/
inductive PostParseStep where
  | processExit (code : Nat)
  | requestDistanceMatrix
  | buildAndSolve
  deriving Repr, DecidableEq

/-- Trace of `PostParseStep`s the program performs after parsing, read off
source lines 136–186. -/
def postParseTrace (locations : List Location) : List PostParseStep :=
  if BING_DM_API_CUSTOMER_LIMIT < locations.length then [.processExit 1]
  else [.requestDistanceMatrix, .buildAndSolve]

/-- Sum of the demands of a route's non-depot stops (the route starts and
ends at the depot, whose demand the capacity invariant does not charge
twice). -/
def routeStopsDemand (locs : List Location) (route : List Nat) : Rat :=
  (((route.drop 1).dropLast).map (fun i => (locs.getD i default).demand)).sum

/-- Decidable equality for `Except`, so concrete runs of the parser can be
checked by `decide`. -/
instance {ε α : Type} [DecidableEq ε] [DecidableEq α] : DecidableEq (Except ε α) := fun a b =>
  match a, b with
  | .error e, .error f =>
    if h : e = f then .isTrue (congrArg Except.error h)
    else .isFalse (fun hh => h (Except.error.inj hh))
  | .error _, .ok _ => .isFalse (fun hh => Except.noConfusion hh)
  | .ok _, .error _ => .isFalse (fun hh => Except.noConfusion hh)
  | .ok x, .ok y =>
    if h : x = y then .isTrue (congrArg Except.ok h)
    else .isFalse (fun hh => h (Except.ok.inj hh))

/-- A fixed argument record, used to instantiate theorems that quantify over
`ParsedArgs`. -/
def anyArgs : ParsedArgs :=
  { useAddressFile := true, travelMode := "Driving", C := none,
    writeOutputFile := false, verbosity := false }

/-- Arguments of a run with `-C 1` (capacity 1). -/
def capOneArgs : ParsedArgs :=
  { useAddressFile := true, travelMode := "Driving", C := some 1,
    writeOutputFile := false, verbosity := false }

/-- An address file with a depot and two stops, all lines with 4 fields, so
the stops get the default demand `1` each. -/
def twoStopLines : List String :=
  ["Depot St 1\t00100\tCity\tFI", "Stop A\t00100\tCity\tFI", "Stop B\t00100\tCity\tFI"]

/-- The locations parsed from `twoStopLines`. -/
def twoStopLocs : List Location :=
  [{ addressLine := "Depot St 1", postalCode := "00100", locality := "City",
     countryRegion := "FI", demand := 0, comment := none },
   { addressLine := "Stop A", postalCode := "00100", locality := "City",
     countryRegion := "FI", demand := 1, comment := none },
   { addressLine := "Stop B", postalCode := "00100", locality := "City",
     countryRegion := "FI", demand := 1, comment := none }]

/-- An address file whose three lines all carry an explicit goodsDemand
field of `2`. -/
def demandTwoLines : List String :=
  ["Depot\t1\tCity\tFI\t2", "A\t2\tCity\tFI\t2", "B\t3\tCity\tFI\t2"]

/-- The locations parsed from `demandTwoLines`. -/
def demandTwoLocs : List Location :=
  [{ addressLine := "Depot", postalCode := "1", locality := "City",
     countryRegion := "FI", demand := 2, comment := none },
   { addressLine := "A", postalCode := "2", locality := "City",
     countryRegion := "FI", demand := 2, comment := none },
   { addressLine := "B", postalCode := "3", locality := "City",
     countryRegion := "FI", demand := 2, comment := none }]

/-- A symmetric 3-node distance matrix. -/
def threeNodeMatrix : List (List Int) := [[0, 1, 2], [1, 0, 1], [2, 1, 0]]

/-- A 6-field address data line: four address fields, a goodsDemand of `9`,
and a comment. -/
def sixFieldLine : String := "a\tb\tc\td\t9\tnote"

/-- The location parsed from `sixFieldLine` as a non-first line. -/
def sixFieldLoc : Location :=
  { addressLine := "a", postalCode := "b", locality := "c",
    countryRegion := "d", demand := 1, comment := some "note" }

/-- Helper: `getD` of a mapped list with the mapped default. -/
theorem getD_map_comm {α β : Type} (f : α → β) (l : List α) (i : Nat) (d : α) :
    (l.map f).getD i (f d) = f (l.getD i d) := by
  induction l generalizing i with
  | nil => simp [List.getD]
  | cons a t ih =>
    cases i with
    | zero => simp
    | succ n => simp [ih n]

/-- Helper: the entry `(i, j)` of `create_data_model D` (looked up with the
defaults `distance_callback` uses) is the entry of `D` with `-1` replaced by
`999999`. -/
theorem create_data_model_entry (D : List (List Int)) (i j : Nat) :
    ((create_data_model D).getD i []).getD j 0 =
      (if (D.getD i []).getD j 0 = -1 then 999999 else (D.getD i []).getD j 0) := by
  have h1 : (create_data_model D).getD i [] =
      (D.getD i []).map (fun x : Int => if x = -1 then 999999 else x) := by
    simpa [create_data_model] using
      getD_map_comm (List.map (fun x : Int => if x = -1 then 999999 else x)) D i []
  rw [h1]
  simpa using getD_map_comm (fun x : Int => if x = -1 then 999999 else x) (D.getD i []) j 0

/-- Helper: a defaulted matrix entry is either the default `0` or a member
of one of the matrix's rows. -/
theorem matrix_entry_mem_or_default (D : List (List Int)) (i j : Nat) :
    (D.getD i []).getD j 0 = 0 ∨ ∃ row ∈ D, (D.getD i []).getD j 0 ∈ row := by
  by_cases hi : i < D.length
  · by_cases hj : j < (D.getD i []).length
    · right
      refine ⟨D.getD i [], ?_, ?_⟩
      · rw [List.getD_eq_getElem _ _ hi]
        exact List.getElem_mem _
      · rw [List.getD_eq_getElem _ _ hj]
        exact List.getElem_mem _
    · left
      exact List.getD_eq_default _ _ (Nat.le_of_not_lt hj)
  · left
    rw [List.getD_eq_default _ _ (Nat.le_of_not_lt hi)]
    simp [List.getD]

/-- C1: the `-C` vehicle-capacity argument is accepted but never wired into
the routing model: for any two argument records the constructed model is
identical, the index manager is always built with one vehicle and depot
index `0`, and the whole solve outcome is independent of the arguments. -/
theorem c1_capacity_flag_never_wired :
    ∀ (a b : ParsedArgs) (data : List (List Int)),
      buildRoutingModel a data = buildRoutingModel b data ∧
      (buildRoutingModel a data).manager =
        { numNodes := data.length, numVehicles := 1, depot := 0 } ∧
      ∀ D : List (List Int), mainSolve a D = mainSolve b D :=
  fun a b data => ⟨rfl, rfl, fun D => rfl⟩

/-- C4, counterexample: on the matrix `[[0,-1],[5,0]]` the code rewrites the
sentinel to `999999`, while the spec's formula `max(matrix) * N = 5 * 2`
gives `10`; the two results differ (`10 < 999999`), so sentinels are not
rewritten to `max(matrix) * N`. -/
theorem c4_sentinel_not_max_times_n :
    create_data_model [[0, -1], [5, 0]] = [[0, 999999], [5, 0]] ∧
    specSentinelRewrite [[0, -1], [5, 0]] = [[0, 10], [5, 0]] ∧
    (10 : Int) < 999999 := by
  refine ⟨rfl, rfl, by norm_num⟩

/-- C4, amended: when the data model is built, every sentinel `-1` entry of
the matrix is rewritten to the fixed constant `999999`, and every other
entry is unchanged. -/
theorem c4_sentinel_rewritten_to_constant :
    ∀ (D : List (List Int)) (i j : Nat),
      ((create_data_model D).getD i []).getD j 0 =
        (if (D.getD i []).getD j 0 = -1 then 999999
         else (D.getD i []).getD j 0) :=
  fun D i j => create_data_model_entry D i j

/-- C5: for every matrix whose entries are non-negative or the sentinel
`-1`, after `create_data_model` has rewritten the sentinels the arc cost the
solver can look up at any node pair — the registered `distance_callback`
over the data matrix — is non-negative (and, all values being integers,
finite). -/
theorem c5_no_negative_cost_during_solving :
    ∀ (args : ParsedArgs) (D : List (List Int)),
      (∀ row ∈ D, ∀ x ∈ row, 0 ≤ x ∨ x = -1) →
      ∀ i j : Nat, 0 ≤ (buildRoutingModel args (create_data_model D)).arcCost i j := by
  intro args D h i j
  show 0 ≤ ((create_data_model D).getD i []).getD j 0
  rw [create_data_model_entry]
  by_cases he : (D.getD i []).getD j 0 = -1
  · rw [if_pos he]; norm_num
  · rw [if_neg he]
    rcases matrix_entry_mem_or_default D i j with h0 | ⟨row, hrow, hmem⟩
    · rw [h0]
    · rcases h row hrow _ hmem with hx | hx
      · exact hx
      · exact absurd hx he

/-- Witness for C5 at the concrete matrix `[[0,-1],[-1,0]]`: the sentinel
entry at `(0, 1)` yields a non-negative solver cost. -/
theorem c5_no_negative_cost_witness :
    (∀ row ∈ [[(0 : Int), -1], [-1, 0]], ∀ x ∈ row, 0 ≤ x ∨ x = -1) ∧
    0 ≤ (buildRoutingModel anyArgs (create_data_model [[0, -1], [-1, 0]])).arcCost 0 1 :=
  ⟨by decide, c5_no_negative_cost_during_solving anyArgs [[0, -1], [-1, 0]] (by decide) 0 1⟩

/-- C6: the route cost reported by `print_solution`'s summation loop equals
the sum of the cost-matrix lookups `cost(route[k], route[k+1])` over every
consecutive pair along the route — for the depot-closed routes the solver
returns, this includes the closing edge back to the depot, which is the
loop's final step. -/
theorem c6_reported_cost_is_consecutive_lookup_sum :
    ∀ (M : List (List Int)) (route : List Nat),
      route_distance M route = specTourCost M route := by
  intro M route
  induction route with
  | nil => rfl
  | cons a t ih =>
    cases t with
    | nil => rfl
    | cons b rest =>
      simp only [route_distance, specTourCost, List.tail_cons, List.zip_cons_cons,
        List.map_cons, List.sum_cons] at *
      rw [ih]

/-- C9: at module import time the program reads the API key file; when the
read fails it exits the process with code 1 after writing the error, and
when it succeeds the key is the stripped file contents (no error value is
returned in either case). -/
theorem c9_import_time_key_read_exits_on_failure :
    moduleInit none = ImportInit.exitProcess 1 ∧
    ∀ contents : String, moduleInit (some contents) = ImportInit.apiKey contents.trim :=
  ⟨rfl, fun _ => rfl⟩

/-- C10: when the number of parsed addresses exceeds
`BING_DM_API_CUSTOMER_LIMIT` (50), the program exits with code 1 and the
post-parse trace contains neither the distance-matrix request nor the model
build/solve step. -/
theorem c10_size_limit_rejected_before_request :
    ∀ locs : List Location, BING_DM_API_CUSTOMER_LIMIT < locs.length →
      postParseTrace locs = [PostParseStep.processExit 1] ∧
      PostParseStep.requestDistanceMatrix ∉ postParseTrace locs ∧
      PostParseStep.buildAndSolve ∉ postParseTrace locs := by
  intro locs h
  unfold postParseTrace
  rw [if_pos h]
  refine ⟨rfl, by simp, by simp⟩

/-- Witness for C10 with 51 addresses: the gate fires and the trace is the
process exit alone. -/
theorem c10_size_limit_witness :
    BING_DM_API_CUSTOMER_LIMIT < (List.replicate 51 (default : Location)).length ∧
    postParseTrace (List.replicate 51 (default : Location)) = [PostParseStep.processExit 1] :=
  ⟨by simp [BING_DM_API_CUSTOMER_LIMIT],
   (c10_size_limit_rejected_before_request (List.replicate 51 (default : Location))
      (by simp [BING_DM_API_CUSTOMER_LIMIT])).1⟩

/-- C2, code-bug evidence: a run with `-C 1` over a depot and two stops of
demand `1` each returns the single route `[0, 1, 2, 0]`, whose stop-demand
sum `2` exceeds the capacity `1` — and in fact no model the program builds
carries any capacity dimension, so nothing constrains or checks the demand
sum of a returned route against the capacity. -/
theorem c2_returned_route_exceeds_capacity :
    parseAddressFile twoStopLines = Except.ok twoStopLocs ∧
    mainAddressOutcome capOneArgs twoStopLines threeNodeMatrix =
      MainOutcome.solved [0, 1, 2, 0] 4 ∧
    routeStopsDemand twoStopLocs [0, 1, 2, 0] = 2 ∧
    capOneArgs.C = some 1 ∧ (1 : Rat) < 2 ∧
    ∀ (a : ParsedArgs) (data : List (List Int)),
      (buildRoutingModel a data).dimensions = [] := by
  exact ⟨by decide, by decide, by norm_num [routeStopsDemand, twoStopLocs], rfl,
    by norm_num, fun a data => rfl⟩

/-- C3, code-bug evidence: on the infeasible instance with capacity `1`
(`-C 1`), one vehicle, and every demand `2` (total demand `6`), the program
performs no feasibility detection at all: the run reaches the solver and
returns the solution `[0, 1, 2, 0]` instead of any infeasibility error. -/
theorem c3_infeasible_instance_still_returns_solution :
    parseAddressFile demandTwoLines = Except.ok demandTwoLocs ∧
    (demandTwoLocs.map (fun l => l.demand)).sum = 6 ∧
    capOneArgs.C = some 1 ∧ (1 : Rat) < 6 ∧
    mainAddressOutcome capOneArgs demandTwoLines threeNodeMatrix =
      MainOutcome.solved [0, 1, 2, 0] 4 := by
  exact ⟨by decide, by norm_num [demandTwoLocs], rfl, by norm_num, by decide⟩

/-- C7, counterexample: a well-formed address file whose first data line has
exactly 5 fields sets the depot's demand to the parsed fifth field — here
`7`, not `0`. -/
theorem c7_depot_demand_can_be_nonzero :
    parseLine 0 "a\tb\tc\td\t7" =
      Except.ok (some { addressLine := "a", postalCode := "b", locality := "c",
                        countryRegion := "d", demand := 7, comment := none }) ∧
    (0 : Rat) < 7 := by
  exact ⟨by decide, by norm_num⟩

/-- C7, amended: the depot (first parsed) location's demand is `0` for every
well-formed first data line that does not have exactly 5 fields; a 5-field
first line instead sets the depot demand to its parsed fifth field. -/
theorem c7_depot_demand_zero_unless_five_fields :
    ∀ (line : String) (loc : Location),
      parseLine 0 line = Except.ok (some loc) →
      (pyFields line).length ≠ 5 →
      loc.demand = 0 := by
  intro line loc h h5
  simp only [parseLine] at h
  split at h
  · simp at h
  · split at h
    · simp at h
    · injection h with h
      injection h with h
      subst h
      simp [h5]

/-- Witness for C7 (amended) at the 4-field line `"a\tb\tc\td"`: the parsed
depot demand is `0`. -/
theorem c7_depot_demand_witness :
    parseLine 0 "a\tb\tc\td" =
      Except.ok (some { addressLine := "a", postalCode := "b", locality := "c",
                        countryRegion := "d", demand := 0, comment := none }) ∧
    (pyFields "a\tb\tc\td").length ≠ 5 ∧
    ({ addressLine := "a", postalCode := "b", locality := "c",
       countryRegion := "d", demand := 0, comment := none } : Location).demand = 0 :=
  ⟨by decide, by decide,
   c7_depot_demand_zero_unless_five_fields "a\tb\tc\td" _ (by decide) (by decide)⟩

/-- C8: on a data line with exactly 6 tab-separated fields the parsed
demand is left at its default (`0` for the first parsed location, `1`
otherwise) and the fifth field is stored nowhere as demand, while the sixth
field becomes the comment; the fifth field is parsed as demand exactly when
the line has 5 fields. -/
theorem c8_six_field_line_ignores_goods_demand :
    ∀ (nLocs : Nat) (line : String) (loc : Location),
      parseLine nLocs line = Except.ok (some loc) →
      ((pyFields line).length = 6 →
        loc.demand = (if 0 < nLocs then 1 else 0) ∧
        loc.comment = some ((pyFields line).getD 5 "")) ∧
      ((pyFields line).length = 5 →
        loc.demand = pyFloat ((pyFields line).getD 4 "")) := by
  intro nLocs line loc h
  simp only [parseLine] at h
  split at h
  · simp at h
  · split at h
    · simp at h
    · injection h with h
      injection h with h
      subst h
      refine ⟨fun h6 => ⟨?_, ?_⟩, fun h5 => ?_⟩
      · simp [h6]
      · simp [h6]
      · simp [h5]

/-- Witness for C8 at the 6-field line `sixFieldLine` parsed as a non-first
location: the demand is the default `1` and the comment is the sixth
field. -/
theorem c8_six_field_line_witness :
    parseLine 1 sixFieldLine = Except.ok (some sixFieldLoc) ∧
    (pyFields sixFieldLine).length = 6 ∧
    (sixFieldLoc.demand = (if 0 < 1 then 1 else 0) ∧
     sixFieldLoc.comment = some ((pyFields sixFieldLine).getD 5 "")) :=
  ⟨by decide, by decide,
   (c8_six_field_line_ignores_goods_demand 1 sixFieldLine sixFieldLoc (by decide)).1
     (by decide)⟩

end TravelingSalesman
